import Mathlib

/-!
# REST → gRPC gateway: route handlers and error translation

Shallow embedding of `internal/transport/rest/handler.go`:
`getUser`, `createUser`, `createUserBody` and `writeGRPCError`.

The handlers are stateful Go code.  They are embedded by explicit state passing:

* the gin context `c` is a record holding the inbound request and the list of
  responses written so far (`c.JSON` appends one response);
* the shared gRPC connection is a record holding the backend's state and the log of
  calls issued over it;
* a Go `(resp, err)` pair is an `Except`.

Third-party behaviour the handlers rely on (grpc `status.FromError`, the gin JSON
binding with its `required` / `email` validator tags, `encoding/json` map rendering) is
embedded as far as the handlers observe it; the e-mail syntax check and the JSON string
quoting are parameters.

The generated client is a parameter of the handlers. For the deadline property it is built
over a backend whose replies take time: a call that outlasts the deadline of its context
returns the deadline failure, which grpc hands back as a status.
-/

namespace Rest

/-! ## gRPC codes and status -/

namespace codes

/-- The type `codes.Code` (a `uint32`); only equality of codes is ever used. -/
abbrev Code := Nat

def OK : Code := 0
def Canceled : Code := 1
def Unknown : Code := 2
def InvalidArgument : Code := 3
def DeadlineExceeded : Code := 4
def NotFound : Code := 5
def AlreadyExists : Code := 6
def PermissionDenied : Code := 7
def ResourceExhausted : Code := 8
def FailedPrecondition : Code := 9
def Aborted : Code := 10
def OutOfRange : Code := 11
def Unimplemented : Code := 12
def Internal : Code := 13
def Unavailable : Code := 14
def DataLoss : Code := 15
def Unauthenticated : Code := 16

end codes

/-- A gRPC status as the handlers read it: `st.Code()` and `st.Message()`. -/
structure Status where
  Code : codes.Code
  Message : String
  deriving DecidableEq, Repr

/-- A non-nil Go `error` returned by a backend call, as far as `status.FromError` can tell
errors apart: either the error carries a gRPC status, or it does not and only has its own
text (`err.Error()`). -/
inductive GoError where
  | grpcStatus (code : codes.Code) (message : String)
  | plain (text : String)
  deriving DecidableEq, Repr

/-- The function `status.FromError` on a non-nil error: the status carried by the error and
`true`, or a status of code `Unknown` holding the error text and `false`. -/
def status.FromError : GoError → Status × Bool
  | .grpcStatus k m => (⟨k, m⟩, true)
  | .plain t => (⟨codes.Unknown, t⟩, false)

/-- The error `context.DeadlineExceeded`: a plain error, not a gRPC status. -/
def context.DeadlineExceeded : GoError := .plain "context deadline exceeded"

/-! ## HTTP status codes -/

namespace http

def StatusOK : Nat := 200
def StatusCreated : Nat := 201
def StatusBadRequest : Nat := 400
def StatusNotFound : Nat := 404
def StatusInternalServerError : Nat := 500
def StatusGatewayTimeout : Nat := 504

end http

/-! ## Call contexts -/

/-- A call context: the time left until its deadline, in nanoseconds (`none`: no deadline). -/
structure Context where
  deadline : Option Nat
  deriving DecidableEq, Repr

/-- The duration `time.Second`, in nanoseconds. -/
def time.Second : Nat := 1000000000

/-- The function `context.WithTimeout`: the child's deadline is the earlier of the parent's
deadline and the timeout. -/
def context.WithTimeout (parent : Context) (d : Nat) : Context :=
  match parent.deadline with
  | none => ⟨some d⟩
  | some p => ⟨some (min p d)⟩

/-! ## Backend messages and client -/

/-- Modelled from the spec: the generated message `userv1.User` (package `gen/go/user/v1` is
not part of the given sources); the spec gives the entity the fields id, email and name. -/
structure User where
  Id : String
  Email : String
  Name : String
  deriving DecidableEq, Repr

/-- Modelled from the spec: the generated getter `GetId`, which like every generated getter
returns the zero value on a nil message. -/
def User.GetId : Option User → String
  | none => ""
  | some u => u.Id

/-- Modelled from the spec: the generated getter `GetEmail` (zero value on nil). -/
def User.GetEmail : Option User → String
  | none => ""
  | some u => u.Email

/-- Modelled from the spec: the generated getter `GetName` (zero value on nil). -/
def User.GetName : Option User → String
  | none => ""
  | some u => u.Name

/-- Modelled from the spec: the generated message `userv1.GetUserRequest`. -/
structure GetUserRequest where
  Id : String
  deriving DecidableEq, Repr

/-- Modelled from the spec: the generated message `userv1.CreateUserRequest`. -/
structure CreateUserRequest where
  Email : String
  Name : String
  deriving DecidableEq, Repr

/-- Modelled from the spec: the generated message `userv1.GetUserResponse`; its entity may be
absent (nil). -/
structure GetUserResponse where
  User : Option User
  deriving DecidableEq, Repr

/-- Modelled from the spec: the generated message `userv1.CreateUserResponse`; its entity may
be absent (nil). -/
structure CreateUserResponse where
  User : Option User
  deriving DecidableEq, Repr

/-- Modelled from the spec: the generated getter `GetUser` of a get response. -/
def GetUserResponse.GetUser (r : GetUserResponse) : Option Rest.User := r.User

/-- Modelled from the spec: the generated getter `GetUser` of a create response. -/
def CreateUserResponse.GetUser (r : CreateUserResponse) : Option Rest.User := r.User

/-- Modelled from the spec: the generated client `userv1.UserServiceClient` over a backend
with state `σ`. Each procedure returns a value or a failure, and the next backend state. -/
structure UserServiceClient (σ : Type) where
  GetUser : Context → GetUserRequest → σ → Except GoError GetUserResponse × σ
  CreateUser : Context → CreateUserRequest → σ → Except GoError CreateUserResponse × σ

/-- A call issued over the shared connection. -/
inductive Call where
  | GetUser (ctx : Context) (req : GetUserRequest)
  | CreateUser (ctx : Context) (req : CreateUserRequest)
  deriving DecidableEq, Repr

/-- The shared connection `s.GRPCConn` with the backend behind it: the backend's state and
the calls issued so far, oldest first. -/
structure Conn (σ : Type) where
  backend : σ
  calls : List Call

/-- The call `client.GetUser(ctx, req)`: logs the call and runs the backend. -/
def Conn.GetUser {σ : Type} (cl : UserServiceClient σ) (ctx : Context) (req : GetUserRequest)
    (conn : Conn σ) : Except GoError GetUserResponse × Conn σ :=
  let r := cl.GetUser ctx req conn.backend
  (r.1, ⟨r.2, conn.calls ++ [Call.GetUser ctx req]⟩)

/-- The call `client.CreateUser(ctx, req)`: logs the call and runs the backend. -/
def Conn.CreateUser {σ : Type} (cl : UserServiceClient σ) (ctx : Context)
    (req : CreateUserRequest) (conn : Conn σ) : Except GoError CreateUserResponse × Conn σ :=
  let r := cl.CreateUser ctx req conn.backend
  (r.1, ⟨r.2, conn.calls ++ [Call.CreateUser ctx req]⟩)

/-! ## The gin context -/

/-- The map `gin.H` with string values, as the entries of a map literal. -/
abbrev H := List (String × String)

/-- One response written by `c.JSON`: the status and the object to be rendered. -/
structure Response where
  status : Nat
  body : H
  deriving DecidableEq, Repr

/-- The struct `createUserBody`. -/
structure createUserBody where
  Email : String
  Name : String
  deriving DecidableEq, Repr

/-- The gin context of one request: the path parameter `id`, the request's own context, the
result of decoding the request body into `createUserBody` (a decoding error with its text,
or the struct with absent fields left at the zero value), and the responses written. -/
structure GinContext where
  paramId : String
  Request : Context
  decoded : Except String createUserBody
  written : List Response

/-- The method `c.JSON(code, obj)`: writes one response. -/
def GinContext.JSON (c : GinContext) (code : Nat) (obj : H) : GinContext :=
  ⟨c.paramId, c.Request, c.decoded, c.written ++ [⟨code, obj⟩]⟩

/-! ## Binding and validation of `createUserBody` -/

/-- A failed validator tag on a field of `createUserBody`. -/
structure FieldError where
  field : String
  tag : String
  deriving DecidableEq, Repr

/-- The text of one field error. -/
def FieldError.Error (e : FieldError) : String :=
  "Key: 'createUserBody." ++ e.field ++ "' Error:Field validation for '" ++ e.field ++
    "' failed on the '" ++ e.tag ++ "' tag"

/-- The binding tags of `createUserBody`: `Email` is `required,email`, `Name` is `required`.
`required` fails on the zero value, the tags of a field are tried in order and the first
failing one is reported, and every field is checked. -/
def validate (isEmail : String → Bool) (b : createUserBody) : List FieldError :=
  (if b.Email = "" then [⟨"Email", "required"⟩]
   else if isEmail b.Email then [] else [⟨"Email", "email"⟩]) ++
  (if b.Name = "" then [⟨"Name", "required"⟩] else [])

/-- The method `c.ShouldBindJSON(&body)`: decode, then validate; the error is returned as its
text `err.Error()`. -/
def ShouldBindJSON (isEmail : String → Bool) (c : GinContext) : Except String createUserBody :=
  match c.decoded with
  | .error e => .error e
  | .ok b =>
    match validate isEmail b with
    | [] => .ok b
    | e :: es => .error ("\n".intercalate ((e :: es).map FieldError.Error))

/-! ## The handlers -/

/-- The function `writeGRPCError`. -/
def writeGRPCError (c : GinContext) (err : GoError) : GinContext :=
  match status.FromError err with
  | (st, ok) =>
    if !ok then
      c.JSON http.StatusInternalServerError [("error", "unknown error")]
    else if st.Code = codes.NotFound then
      c.JSON http.StatusNotFound [("error", st.Message)]
    else if st.Code = codes.InvalidArgument then
      c.JSON http.StatusBadRequest [("error", st.Message)]
    else if st.Code = codes.DeadlineExceeded then
      c.JSON http.StatusGatewayTimeout [("error", "upstream timeout")]
    else
      c.JSON http.StatusInternalServerError [("error", st.Message)]

/-- The handler `getUser`. -/
def getUser {σ : Type} (cl : UserServiceClient σ) (c : GinContext) (conn : Conn σ) :
    GinContext × Conn σ :=
  let ctx := context.WithTimeout c.Request (2 * time.Second)
  match Conn.GetUser cl ctx ⟨c.paramId⟩ conn with
  | (.error err, conn1) => (writeGRPCError c err, conn1)
  | (.ok resp, conn1) =>
    (c.JSON http.StatusOK
      [("id", User.GetId resp.GetUser),
       ("email", User.GetEmail resp.GetUser),
       ("name", User.GetName resp.GetUser)], conn1)

/-- The handler `createUser`. -/
def createUser {σ : Type} (isEmail : String → Bool) (cl : UserServiceClient σ)
    (c : GinContext) (conn : Conn σ) : GinContext × Conn σ :=
  match ShouldBindJSON isEmail c with
  | .error e => (c.JSON http.StatusBadRequest [("error", e)], conn)
  | .ok body =>
    let ctx := context.WithTimeout c.Request (2 * time.Second)
    match Conn.CreateUser cl ctx ⟨body.Email, body.Name⟩ conn with
    | (.error err, conn1) => (writeGRPCError c err, conn1)
    | (.ok resp, conn1) =>
      (c.JSON http.StatusCreated
        [("id", User.GetId resp.GetUser),
         ("email", User.GetEmail resp.GetUser),
         ("name", User.GetName resp.GetUser)], conn1)

/-! ## Rendering of a response body -/

/-- The entries of a map in the order `encoding/json` writes them: sorted by key. -/
def sortedEntries (h : H) : List (String × String) :=
  h.insertionSort (fun a b => a.1 ≤ b.1)

/-- The bytes `encoding/json` writes for a `gin.H` with string values; `quote` is the
encoder of a JSON string. -/
def Marshal (quote : String → String) (h : H) : String :=
  "\x7b" ++ ",".intercalate ((sortedEntries h).map (fun kv => quote kv.1 ++ ":" ++ quote kv.2))
    ++ "\x7d"

/-- The keys of a body, in the order of the map literal. -/
def keys (h : H) : List String := h.map Prod.fst

/-- A success payload: status 200 or 201 and an object with exactly the keys id, email and
name. -/
def isSuccessPayload (r : Response) : Prop :=
  (r.status = 200 ∨ r.status = 201) ∧ keys r.body = ["id", "email", "name"]

/-- An error object: status 400, 404, 500 or 504 and an object with exactly one field, named
error (its value is a string by the type of `H`). -/
def isErrorObject (r : Response) : Prop :=
  (r.status = 400 ∨ r.status = 404 ∨ r.status = 500 ∨ r.status = 504) ∧ keys r.body = ["error"]

/-- A deadline failure in one of its two forms: a gRPC status with code `DeadlineExceeded`, or
the bare error `context.DeadlineExceeded`. -/
def isDeadlineFailure (err : GoError) : Prop :=
  (∃ m, err = .grpcStatus codes.DeadlineExceeded m) ∨ err = context.DeadlineExceeded

/-! ## The client over the connection, with time -/

/-- What the backend does with one call: the outcome the call has when it is left to return
on its own, and the time it takes to return, in nanoseconds. -/
structure Reply (α : Type) where
  result : Except GoError α
  elapsed : Nat

/-- Modelled from the spec: the backend service reached over the shared connection, with
state `σ` (the service itself is an external collaborator, no source of it is given). For
each call it gives the reply and the next state. -/
structure Backend (σ : Type) where
  GetUser : GetUserRequest → σ → Reply GetUserResponse × σ
  CreateUser : CreateUserRequest → σ → Reply CreateUserResponse × σ

/-- The conversion grpc applies to an error before a call returns it (`toRPCErr`): an error
that carries a status is returned as it is, the context errors become the statuses
`DeadlineExceeded` and `Canceled` holding the error text, and any other error becomes a
status `Unknown` holding its text, the end-of-stream error apart. Plain errors are told
apart by their text. -/
def toRPCErr : GoError → GoError
  | .grpcStatus k m => .grpcStatus k m
  | .plain t =>
    if t = "EOF" then .plain t
    else if t = "context deadline exceeded" then .grpcStatus codes.DeadlineExceeded t
    else if t = "context canceled" then .grpcStatus codes.Canceled t
    else if t = "unexpected EOF" then .grpcStatus codes.Internal t
    else .grpcStatus codes.Unknown t

/-- One unary call through the connection under the context `ctx` (`cc.Invoke`): a call that
has not returned when the deadline of `ctx` expires fails with the deadline failure `raised`,
in whatever form it is raised underneath; otherwise the call returns the backend's own
result. Errors are returned through `toRPCErr`. -/
def Invoke {α : Type} (raised : GoError) (ctx : Context) (reply : Reply α) :
    Except GoError α :=
  match ctx.deadline, reply.result with
  | some d, res =>
    if d < reply.elapsed then .error (toRPCErr raised)
    else
      match res with
      | .ok v => .ok v
      | .error e => .error (toRPCErr e)
  | none, .ok v => .ok v
  | none, .error e => .error (toRPCErr e)

/-- Modelled from the spec: the generated constructor `userv1.NewUserServiceClient` (package
`gen/go/user/v1` is not part of the given sources), here over the backend behind the
connection. Each procedure is one unary call bounded by the deadline of its context, and
returns a value or a failure. -/
def NewUserServiceClient {σ : Type} (raised : GoError) (b : Backend σ) :
    UserServiceClient σ where
  GetUser := fun ctx req s => (Invoke raised ctx (b.GetUser req s).1, (b.GetUser req s).2)
  CreateUser := fun ctx req s =>
    (Invoke raised ctx (b.CreateUser req s).1, (b.CreateUser req s).2)

/-! ## Test doubles -/

/-- A backend double whose state is its call counter. `GetUser` reports not-found for "999"
and otherwise returns an entity; `CreateUser` rejects the name "bad" as an invalid argument
and otherwise assigns the id "42". -/
def doubleClient : UserServiceClient Nat where
  GetUser := fun _ r n =>
    (if r.Id = "999" then .error (.grpcStatus codes.NotFound "user not found")
     else .ok ⟨some ⟨r.Id, "a@b.com", "Ann"⟩⟩, n + 1)
  CreateUser := fun _ r n =>
    (if r.Name = "bad" then .error (.grpcStatus codes.InvalidArgument "bad name")
     else .ok ⟨some ⟨"42", r.Email, r.Name⟩⟩, n + 1)

/-- A timed backend double whose state is its call counter: every call finds its entity; the
call for the id "slow" takes 3 seconds, every other call 1 millisecond. -/
def timedBackend : Backend Nat where
  GetUser := fun r n =>
    (⟨.ok ⟨some ⟨r.Id, "a@b.com", "Ann"⟩⟩, if r.Id = "slow" then 3000000000 else 1000000⟩,
      n + 1)
  CreateUser := fun r n => (⟨.ok ⟨some ⟨"42", r.Email, r.Name⟩⟩, 1000000⟩, n + 1)

/-- A stand-in for the validator's e-mail syntax check: the address holds an at sign. -/
def sampleIsEmail (s : String) : Bool := s.data.contains '@'

/-- A stand-in for the JSON string encoder, right for strings that need no escaping. -/
def sampleQuote (s : String) : String := "\"" ++ s ++ "\""

/-- A fresh gin context for `GET /api/v1/users/:id`. -/
def getRequest (id : String) : GinContext := ⟨id, ⟨none⟩, .error "EOF", []⟩

/-- A fresh gin context for `POST /api/v1/users` whose body decoded to `b`. -/
def postRequest (b : createUserBody) : GinContext := ⟨"", ⟨none⟩, .ok b, []⟩

/-- A connection on which no call has been issued yet. -/
def freshConn : Conn Nat := ⟨0, []⟩

/-! ## The order of map keys -/

instance keyLE_total : IsTotal (String × String) (fun a b => a.1 ≤ b.1) :=
  ⟨fun a b => le_total a.1 b.1⟩

instance keyLE_trans : IsTrans (String × String) (fun a b => a.1 ≤ b.1) :=
  ⟨fun _ _ _ h1 h2 => le_trans h1 h2⟩

instance keyLT_antisymm : IsAntisymm (String × String) (fun a b => a.1 < b.1) :=
  ⟨fun _ _ h1 h2 => absurd h1 (lt_asymm h2)⟩

/-! ## Unfolding lemmas for the handlers -/

theorem getUser_of_ok {σ : Type} (cl : UserServiceClient σ) (c : GinContext) (conn : Conn σ)
    (resp : GetUserResponse)
    (h : (cl.GetUser (context.WithTimeout c.Request (2 * time.Second)) ⟨c.paramId⟩
      conn.backend).1 = .ok resp) :
    getUser cl c conn =
      (c.JSON 200 [("id", User.GetId resp.User), ("email", User.GetEmail resp.User),
          ("name", User.GetName resp.User)],
        ⟨(cl.GetUser (context.WithTimeout c.Request (2 * time.Second)) ⟨c.paramId⟩
            conn.backend).2,
          conn.calls ++ [Call.GetUser (context.WithTimeout c.Request (2 * time.Second))
            ⟨c.paramId⟩]⟩) := by
  simp [getUser, Conn.GetUser, h, http.StatusOK, GetUserResponse.GetUser]

theorem getUser_of_error {σ : Type} (cl : UserServiceClient σ) (c : GinContext) (conn : Conn σ)
    (err : GoError)
    (h : (cl.GetUser (context.WithTimeout c.Request (2 * time.Second)) ⟨c.paramId⟩
      conn.backend).1 = .error err) :
    getUser cl c conn =
      (writeGRPCError c err,
        ⟨(cl.GetUser (context.WithTimeout c.Request (2 * time.Second)) ⟨c.paramId⟩
            conn.backend).2,
          conn.calls ++ [Call.GetUser (context.WithTimeout c.Request (2 * time.Second))
            ⟨c.paramId⟩]⟩) := by
  simp [getUser, Conn.GetUser, h]

theorem createUser_of_bind_error {σ : Type} (isEmail : String → Bool)
    (cl : UserServiceClient σ) (c : GinContext) (conn : Conn σ) (e : String)
    (h : ShouldBindJSON isEmail c = .error e) :
    createUser isEmail cl c conn = (c.JSON 400 [("error", e)], conn) := by
  simp [createUser, h, http.StatusBadRequest]

theorem createUser_of_ok {σ : Type} (isEmail : String → Bool) (cl : UserServiceClient σ)
    (c : GinContext) (conn : Conn σ) (body : createUserBody) (resp : CreateUserResponse)
    (hb : ShouldBindJSON isEmail c = .ok body)
    (h : (cl.CreateUser (context.WithTimeout c.Request (2 * time.Second))
      ⟨body.Email, body.Name⟩ conn.backend).1 = .ok resp) :
    createUser isEmail cl c conn =
      (c.JSON 201 [("id", User.GetId resp.User), ("email", User.GetEmail resp.User),
          ("name", User.GetName resp.User)],
        ⟨(cl.CreateUser (context.WithTimeout c.Request (2 * time.Second))
            ⟨body.Email, body.Name⟩ conn.backend).2,
          conn.calls ++ [Call.CreateUser (context.WithTimeout c.Request (2 * time.Second))
            ⟨body.Email, body.Name⟩]⟩) := by
  simp [createUser, Conn.CreateUser, hb, h, http.StatusCreated, CreateUserResponse.GetUser]

theorem createUser_of_error {σ : Type} (isEmail : String → Bool) (cl : UserServiceClient σ)
    (c : GinContext) (conn : Conn σ) (body : createUserBody) (err : GoError)
    (hb : ShouldBindJSON isEmail c = .ok body)
    (h : (cl.CreateUser (context.WithTimeout c.Request (2 * time.Second))
      ⟨body.Email, body.Name⟩ conn.backend).1 = .error err) :
    createUser isEmail cl c conn =
      (writeGRPCError c err,
        ⟨(cl.CreateUser (context.WithTimeout c.Request (2 * time.Second))
            ⟨body.Email, body.Name⟩ conn.backend).2,
          conn.calls ++ [Call.CreateUser (context.WithTimeout c.Request (2 * time.Second))
            ⟨body.Email, body.Name⟩]⟩) := by
  simp [createUser, Conn.CreateUser, hb, h]

/-- The binding fails exactly when decoding failed, or the e-mail is absent or malformed, or
the name is absent or empty. -/
theorem ShouldBindJSON_error_iff (isEmail : String → Bool) (c : GinContext) :
    (∃ e, ShouldBindJSON isEmail c = .error e) ↔
      ((∃ e, c.decoded = .error e) ∨
        (∃ b, c.decoded = .ok b ∧ (b.Email = "" ∨ isEmail b.Email = false ∨ b.Name = ""))) := by
  unfold ShouldBindJSON validate
  cases hd : c.decoded with
  | error e => simp
  | ok b =>
    by_cases h1 : b.Email = "" <;> by_cases h2 : isEmail b.Email = true <;>
      by_cases h3 : b.Name = "" <;> simp [h1, h2, h3]

/-- A body that binds is the decoded body itself, and it passes every tag. -/
theorem ShouldBindJSON_ok (isEmail : String → Bool) (c : GinContext) (body : createUserBody)
    (h : ShouldBindJSON isEmail c = .ok body) :
    c.decoded = .ok body ∧ body.Email ≠ "" ∧ isEmail body.Email = true ∧ body.Name ≠ "" := by
  unfold ShouldBindJSON validate at h
  cases hd : c.decoded with
  | error e => simp [hd] at h
  | ok b =>
    by_cases h1 : b.Email = "" <;> by_cases h2 : isEmail b.Email = true <;>
      by_cases h3 : b.Name = "" <;> simp [hd, h1, h2, h3] at h
    subst h
    exact ⟨rfl, h1, h2, h3⟩

/-- The error translation writes exactly one error object. -/
theorem writeGRPCError_written (c : GinContext) (err : GoError) :
    ∃ r, (writeGRPCError c err).written = c.written ++ [r] ∧ isErrorObject r ∧
      (r.status = 400 ↔ ∃ m, err = .grpcStatus codes.InvalidArgument m) := by
  cases err with
  | plain t =>
    refine ⟨⟨500, [("error", "unknown error")]⟩, ?_, ?_, ?_⟩
    · simp [writeGRPCError, status.FromError, GinContext.JSON, http.StatusInternalServerError]
    · simp [isErrorObject, keys]
    · simp
  | grpcStatus k m =>
    by_cases h1 : k = codes.NotFound
    · refine ⟨⟨404, [("error", m)]⟩, ?_, ?_, ?_⟩
      · simp [writeGRPCError, status.FromError, GinContext.JSON, http.StatusNotFound, h1]
      · simp [isErrorObject, keys]
      · simp [h1, codes.NotFound, codes.InvalidArgument]
    · by_cases h2 : k = codes.InvalidArgument
      · refine ⟨⟨400, [("error", m)]⟩, ?_, ?_, ?_⟩
        · simp [writeGRPCError, status.FromError, GinContext.JSON, http.StatusBadRequest, h2,
            codes.InvalidArgument, codes.NotFound]
        · simp [isErrorObject, keys]
        · simp [h2]
      · by_cases h3 : k = codes.DeadlineExceeded
        · refine ⟨⟨504, [("error", "upstream timeout")]⟩, ?_, ?_, ?_⟩
          · simp [writeGRPCError, status.FromError, GinContext.JSON,
              http.StatusGatewayTimeout, h3, codes.InvalidArgument, codes.NotFound,
              codes.DeadlineExceeded]
          · simp [isErrorObject, keys]
          · simp [h3, codes.DeadlineExceeded, codes.InvalidArgument]
        · refine ⟨⟨500, [("error", m)]⟩, ?_, ?_, ?_⟩
          · simp [writeGRPCError, status.FromError, GinContext.JSON,
              http.StatusInternalServerError, h1, h2, h3]
          · simp [isErrorObject, keys]
          · simp [h2]

/-! ## Error translation -/

/-- C1: for a backend error carrying a gRPC status with code `k` and message `m`,
`writeGRPCError` writes exactly one response: NotFound gives 404 with the message,
InvalidArgument gives 400 with the message, DeadlineExceeded gives 504 with the fixed text
"upstream timeout", and every other code gives 500 with the message. -/
theorem writeGRPCError_status (c : GinContext) (err : GoError) (k : codes.Code) (m : String)
    (h : status.FromError err = (⟨k, m⟩, true)) :
    (k = codes.NotFound →
        (writeGRPCError c err).written = c.written ++ [⟨404, [("error", m)]⟩]) ∧
    (k = codes.InvalidArgument →
        (writeGRPCError c err).written = c.written ++ [⟨400, [("error", m)]⟩]) ∧
    (k = codes.DeadlineExceeded →
        (writeGRPCError c err).written = c.written ++ [⟨504, [("error", "upstream timeout")]⟩]) ∧
    (k ≠ codes.NotFound → k ≠ codes.InvalidArgument → k ≠ codes.DeadlineExceeded →
        (writeGRPCError c err).written = c.written ++ [⟨500, [("error", m)]⟩]) := by
  refine ⟨?_, ?_, ?_, ?_⟩
  · intro hk
    subst hk
    simp [writeGRPCError, h, GinContext.JSON, http.StatusNotFound]
  · intro hk
    subst hk
    simp [writeGRPCError, h, GinContext.JSON, http.StatusBadRequest, codes.InvalidArgument,
      codes.NotFound]
  · intro hk
    subst hk
    simp [writeGRPCError, h, GinContext.JSON, http.StatusGatewayTimeout, codes.InvalidArgument,
      codes.NotFound, codes.DeadlineExceeded]
  · intro h1 h2 h3
    simp [writeGRPCError, h, GinContext.JSON, http.StatusInternalServerError, h1, h2, h3]

/-- Witness of C1: an `Unavailable` status with message "down" gives 500 with that message,
and the other three branches at their own codes. -/
theorem writeGRPCError_status_witness :
    (writeGRPCError (getRequest "1") (.grpcStatus codes.Unavailable "down")).written
      = [⟨500, [("error", "down")]⟩] ∧
    (writeGRPCError (getRequest "1") (.grpcStatus codes.NotFound "gone")).written
      = [⟨404, [("error", "gone")]⟩] ∧
    (writeGRPCError (getRequest "1") (.grpcStatus codes.InvalidArgument "bad")).written
      = [⟨400, [("error", "bad")]⟩] ∧
    (writeGRPCError (getRequest "1") (.grpcStatus codes.DeadlineExceeded "late")).written
      = [⟨504, [("error", "upstream timeout")]⟩] :=
  ⟨(writeGRPCError_status (getRequest "1") (.grpcStatus codes.Unavailable "down")
      codes.Unavailable "down" rfl).2.2.2 (by decide) (by decide) (by decide),
   (writeGRPCError_status (getRequest "1") (.grpcStatus codes.NotFound "gone")
      codes.NotFound "gone" rfl).1 rfl,
   (writeGRPCError_status (getRequest "1") (.grpcStatus codes.InvalidArgument "bad")
      codes.InvalidArgument "bad" rfl).2.1 rfl,
   (writeGRPCError_status (getRequest "1") (.grpcStatus codes.DeadlineExceeded "late")
      codes.DeadlineExceeded "late" rfl).2.2.1 rfl⟩

/-- C2: for a backend error that is not a gRPC status error, `writeGRPCError` writes exactly
one response, 500 with the fixed text "unknown error"; the response does not depend on the
error, so any two such errors give the same context. -/
theorem writeGRPCError_unknown (c : GinContext) (err err2 : GoError)
    (h : (status.FromError err).2 = false) (h2 : (status.FromError err2).2 = false) :
    (writeGRPCError c err).written = c.written ++ [⟨500, [("error", "unknown error")]⟩] ∧
    writeGRPCError c err = writeGRPCError c err2 := by
  cases err with
  | grpcStatus k m => simp [status.FromError] at h
  | plain t =>
    cases err2 with
    | grpcStatus k m => simp [status.FromError] at h2
    | plain t2 =>
      simp [writeGRPCError, status.FromError, GinContext.JSON, http.StatusInternalServerError]

/-- Witness of C2: two plain errors with different texts. -/
theorem writeGRPCError_unknown_witness :
    (writeGRPCError (getRequest "1") (.plain "dial tcp: refused")).written
      = [] ++ [⟨500, [("error", "unknown error")]⟩] ∧
    writeGRPCError (getRequest "1") (.plain "dial tcp: refused")
      = writeGRPCError (getRequest "1") (.plain "EOF") :=
  writeGRPCError_unknown (getRequest "1") (.plain "dial tcp: refused") (.plain "EOF") rfl rfl

/-! ## The create handler: validation -/

/-- C3: when the request body fails decoding or validation (decoding failed, the e-mail is
absent or not a valid address, or the name is absent or empty), `createUser` writes exactly
one response, 400 with the text of the binding error, and leaves the connection untouched:
no call is logged and the backend state is the same. -/
theorem createUser_invalid {σ : Type} (isEmail : String → Bool) (cl : UserServiceClient σ)
    (c : GinContext) (conn : Conn σ)
    (h : (∃ e, c.decoded = .error e) ∨
      (∃ b, c.decoded = .ok b ∧ (b.Email = "" ∨ isEmail b.Email = false ∨ b.Name = ""))) :
    ∃ e, ShouldBindJSON isEmail c = .error e ∧
      (createUser isEmail cl c conn).1.written = c.written ++ [⟨400, [("error", e)]⟩] ∧
      (createUser isEmail cl c conn).2.calls = conn.calls ∧
      (createUser isEmail cl c conn).2.backend = conn.backend := by
  obtain ⟨e, he⟩ := (ShouldBindJSON_error_iff isEmail c).2 h
  refine ⟨e, he, ?_⟩
  rw [createUser_of_bind_error isEmail cl c conn e he]
  simp [GinContext.JSON]

/-- Witness of C3: a body with a malformed address and a name; the double's counter stays
at 0. -/
theorem createUser_invalid_witness :
    ∃ e, ShouldBindJSON sampleIsEmail (postRequest ⟨"not-an-address", "Ann"⟩) = .error e ∧
      (createUser sampleIsEmail doubleClient (postRequest ⟨"not-an-address", "Ann"⟩)
        freshConn).1.written = [] ++ [⟨400, [("error", e)]⟩] ∧
      (createUser sampleIsEmail doubleClient (postRequest ⟨"not-an-address", "Ann"⟩)
        freshConn).2.calls = [] ∧
      (createUser sampleIsEmail doubleClient (postRequest ⟨"not-an-address", "Ann"⟩)
        freshConn).2.backend = 0 :=
  createUser_invalid sampleIsEmail doubleClient (postRequest ⟨"not-an-address", "Ann"⟩)
    freshConn (Or.inr ⟨⟨"not-an-address", "Ann"⟩, rfl, Or.inr (Or.inl (by decide))⟩)

/-! ## Success payloads -/

/-- C4: when the backend call succeeds, `getUser` writes exactly one response with status 200
and `createUser` (on a body that binds) exactly one with status 201; the body has exactly the
keys id, email and name, holding the id, email and name of the entity in the backend's
response, or three empty strings when the response carries no entity. -/
theorem success_payload {σ : Type} (isEmail : String → Bool) (cl : UserServiceClient σ)
    (c : GinContext) (conn : Conn σ) :
    (∀ resp : GetUserResponse,
      (cl.GetUser (context.WithTimeout c.Request (2 * time.Second)) ⟨c.paramId⟩
        conn.backend).1 = .ok resp →
      (getUser cl c conn).1.written = c.written ++
        [match resp.User with
          | some u => ⟨200, [("id", u.Id), ("email", u.Email), ("name", u.Name)]⟩
          | none => ⟨200, [("id", ""), ("email", ""), ("name", "")]⟩]) ∧
    (∀ (body : createUserBody) (resp : CreateUserResponse),
      ShouldBindJSON isEmail c = .ok body →
      (cl.CreateUser (context.WithTimeout c.Request (2 * time.Second))
        ⟨body.Email, body.Name⟩ conn.backend).1 = .ok resp →
      (createUser isEmail cl c conn).1.written = c.written ++
        [match resp.User with
          | some u => ⟨201, [("id", u.Id), ("email", u.Email), ("name", u.Name)]⟩
          | none => ⟨201, [("id", ""), ("email", ""), ("name", "")]⟩]) := by
  constructor
  · intro resp h
    rw [getUser_of_ok cl c conn resp h]
    cases hu : resp.User <;> simp [GinContext.JSON, User.GetId, User.GetEmail, User.GetName]
  · intro body resp hb h
    rw [createUser_of_ok isEmail cl c conn body resp hb h]
    cases hu : resp.User <;> simp [GinContext.JSON, User.GetId, User.GetEmail, User.GetName]

/-- Witness of C4: the body with email a@b.com and name Ann against the double, which
assigns the id "42", gives 201 with id 42, email a@b.com and name Ann. -/
theorem success_payload_witness :
    (createUser sampleIsEmail doubleClient (postRequest ⟨"a@b.com", "Ann"⟩)
      freshConn).1.written
      = [⟨201, [("id", "42"), ("email", "a@b.com"), ("name", "Ann")]⟩] :=
  (success_payload sampleIsEmail doubleClient (postRequest ⟨"a@b.com", "Ann"⟩) freshConn).2
    ⟨"a@b.com", "Ann"⟩ ⟨some ⟨"42", "a@b.com", "Ann"⟩⟩ rfl rfl

/-! ## The get handler: not found -/

/-- C5: when the backend answers the `GetUser` call with a not-found status carrying the
message `m`, `getUser` writes exactly one response, 404 with that message. -/
theorem getUser_not_found {σ : Type} (cl : UserServiceClient σ) (c : GinContext)
    (conn : Conn σ) (err : GoError) (m : String)
    (h : (cl.GetUser (context.WithTimeout c.Request (2 * time.Second)) ⟨c.paramId⟩
      conn.backend).1 = .error err)
    (hs : status.FromError err = (⟨codes.NotFound, m⟩, true)) :
    (getUser cl c conn).1.written = c.written ++ [⟨404, [("error", m)]⟩] := by
  rw [getUser_of_error cl c conn err h]
  simp [writeGRPCError, hs, GinContext.JSON, http.StatusNotFound]

/-- Witness of C5: the id "999" against the double, which reports "user not found". -/
theorem getUser_not_found_witness :
    (getUser doubleClient (getRequest "999") freshConn).1.written
      = [⟨404, [("error", "user not found")]⟩] :=
  getUser_not_found doubleClient (getRequest "999") freshConn
    (.grpcStatus codes.NotFound "user not found") "user not found" rfl rfl

/-! ## Backend calls -/

/-- C9: `getUser` issues exactly one backend call, a `GetUser` call with the path identifier
and a context bounded by 2 seconds, whether the call succeeds or fails, and the backend runs
once. `createUser` issues a call if and only if the body binds; then it is exactly one
`CreateUser` call with the email and name of the decoded body, under a context bounded by 2
seconds, whether the call succeeds or fails, and the backend runs once. -/
theorem exactly_one_call {σ : Type} (isEmail : String → Bool) (cl : UserServiceClient σ)
    (c : GinContext) (conn : Conn σ) :
    ((getUser cl c conn).2.calls = conn.calls ++
        [Call.GetUser (context.WithTimeout c.Request (2 * time.Second)) ⟨c.paramId⟩] ∧
      (getUser cl c conn).2.backend =
        (cl.GetUser (context.WithTimeout c.Request (2 * time.Second)) ⟨c.paramId⟩
          conn.backend).2) ∧
    (∀ body, ShouldBindJSON isEmail c = .ok body →
      c.decoded = .ok body ∧
      (createUser isEmail cl c conn).2.calls = conn.calls ++
        [Call.CreateUser (context.WithTimeout c.Request (2 * time.Second))
          ⟨body.Email, body.Name⟩] ∧
      (createUser isEmail cl c conn).2.backend =
        (cl.CreateUser (context.WithTimeout c.Request (2 * time.Second))
          ⟨body.Email, body.Name⟩ conn.backend).2) ∧
    ((createUser isEmail cl c conn).2.calls ≠ conn.calls →
      ∃ body, ShouldBindJSON isEmail c = .ok body) ∧
    (∃ d, (context.WithTimeout c.Request (2 * time.Second)).deadline = some d ∧
      d ≤ 2000000000) := by
  refine ⟨?_, ?_, ?_, ?_⟩
  · cases h : (cl.GetUser (context.WithTimeout c.Request (2 * time.Second)) ⟨c.paramId⟩
      conn.backend).1 with
    | error err => rw [getUser_of_error cl c conn err h]; exact ⟨rfl, rfl⟩
    | ok resp => rw [getUser_of_ok cl c conn resp h]; exact ⟨rfl, rfl⟩
  · intro body hb
    refine ⟨(ShouldBindJSON_ok isEmail c body hb).1, ?_⟩
    cases h : (cl.CreateUser (context.WithTimeout c.Request (2 * time.Second))
      ⟨body.Email, body.Name⟩ conn.backend).1 with
    | error err => rw [createUser_of_error isEmail cl c conn body err hb h]; exact ⟨rfl, rfl⟩
    | ok resp => rw [createUser_of_ok isEmail cl c conn body resp hb h]; exact ⟨rfl, rfl⟩
  · intro hne
    cases hb : ShouldBindJSON isEmail c with
    | ok body => exact ⟨body, rfl⟩
    | error e =>
      rw [createUser_of_bind_error isEmail cl c conn e hb] at hne
      exact absurd rfl hne
  · unfold context.WithTimeout time.Second
    cases c.Request.deadline with
    | none => exact ⟨_, rfl, le_refl _⟩
    | some p => exact ⟨_, rfl, min_le_right _ _⟩

/-- Witness of C9: against the double, a get for "999" (which fails) and a create for a valid
body each log one call and move the counter from 0 to 1. -/
theorem exactly_one_call_witness :
    ((getUser doubleClient (getRequest "999") freshConn).2.calls
        = [Call.GetUser ⟨some 2000000000⟩ ⟨"999"⟩] ∧
      (getUser doubleClient (getRequest "999") freshConn).2.backend = 1) ∧
    ((createUser sampleIsEmail doubleClient (postRequest ⟨"a@b.com", "bad"⟩)
        freshConn).2.calls = [Call.CreateUser ⟨some 2000000000⟩ ⟨"a@b.com", "bad"⟩] ∧
      (createUser sampleIsEmail doubleClient (postRequest ⟨"a@b.com", "bad"⟩)
        freshConn).2.backend = 1) :=
  ⟨(exactly_one_call sampleIsEmail doubleClient (getRequest "999") freshConn).1,
   ((exactly_one_call sampleIsEmail doubleClient (postRequest ⟨"a@b.com", "bad"⟩)
      freshConn).2.1 ⟨"a@b.com", "bad"⟩ rfl).2⟩

/-! ## Rendering is independent of the map's iteration order -/

theorem sortedEntries_strict (h : H) (hn : (keys h).Nodup) :
    (sortedEntries h).Sorted (fun a b => a.1 < b.1) := by
  have hs : (sortedEntries h).Sorted (fun a b => a.1 ≤ b.1) := List.sorted_insertionSort _ h
  have hp : (sortedEntries h).Perm h := List.perm_insertionSort _ h
  have hk : (keys (sortedEntries h)).Nodup := (hp.map Prod.fst).nodup_iff.2 hn
  have hne : (sortedEntries h).Pairwise (fun a b => a.1 ≠ b.1) := by
    unfold keys at hk
    exact List.pairwise_map.1 hk
  exact (List.Pairwise.and hs hne).imp (fun h => lt_of_le_of_ne h.1 h.2)

/-- Two listings of one map with distinct keys are written in the same order. -/
theorem sortedEntries_perm (h h2 : H) (hp : h2.Perm h) (hn : (keys h).Nodup) :
    sortedEntries h2 = sortedEntries h := by
  have hn2 : (keys h2).Nodup := (hp.map Prod.fst).nodup_iff.2 hn
  have p : (sortedEntries h2).Perm (sortedEntries h) :=
    (List.perm_insertionSort _ h2).trans (hp.trans (List.perm_insertionSort _ h).symm)
  exact List.eq_of_perm_of_sorted p (sortedEntries_strict h2 hn2) (sortedEntries_strict h hn)

theorem Marshal_perm (quote : String → String) (h h2 : H) (hp : h2.Perm h)
    (hn : (keys h).Nodup) : Marshal quote h2 = Marshal quote h := by
  unfold Marshal
  rw [sortedEntries_perm h h2 hp hn]

/-- A success payload is written with its keys in the order email, id, name. -/
theorem sortedEntries_payload (i e n : String) :
    sortedEntries [("id", i), ("email", e), ("name", n)]
      = [("email", e), ("id", i), ("name", n)] := by
  have h1 : ¬ (("id" : String) ≤ "email") := by rw [String.le_iff_toList_le]; decide
  have h2 : (("id" : String) ≤ "name") := by rw [String.le_iff_toList_le]; decide
  have h3 : (("email" : String) ≤ "name") := by rw [String.le_iff_toList_le]; decide
  simp only [sortedEntries, List.insertionSort, List.orderedInsert, h1, h2, h3, if_true,
    if_false]

theorem isSuccessPayload_nodup (r : Response) (h : isSuccessPayload r) : (keys r.body).Nodup := by
  rw [h.2]
  decide

theorem isErrorObject_nodup (r : Response) (h : isErrorObject r) : (keys r.body).Nodup := by
  rw [h.2]
  decide

theorem not_success_and_error (r : Response) : ¬ (isSuccessPayload r ∧ isErrorObject r) := by
  rintro ⟨⟨h1, _⟩, ⟨h2, _⟩⟩
  omega

/-- The get handler writes exactly one response: a success payload when the call succeeds,
an error object when it fails. -/
theorem getUser_written {σ : Type} (cl : UserServiceClient σ) (c : GinContext)
    (conn : Conn σ) :
    ∃ r, (getUser cl c conn).1.written = c.written ++ [r] ∧
      ((∃ resp, (cl.GetUser (context.WithTimeout c.Request (2 * time.Second)) ⟨c.paramId⟩
          conn.backend).1 = .ok resp) → isSuccessPayload r) ∧
      ((∃ err, (cl.GetUser (context.WithTimeout c.Request (2 * time.Second)) ⟨c.paramId⟩
          conn.backend).1 = .error err) → isErrorObject r) ∧
      (isSuccessPayload r ∨ isErrorObject r) := by
  cases h : (cl.GetUser (context.WithTimeout c.Request (2 * time.Second)) ⟨c.paramId⟩
      conn.backend).1 with
  | error err =>
    obtain ⟨r, hr, he, _⟩ := writeGRPCError_written c err
    refine ⟨r, ?_, ?_, fun _ => he, Or.inr he⟩
    · rw [getUser_of_error cl c conn err h]; exact hr
    · rintro ⟨resp, hresp⟩; cases hresp
  | ok resp =>
    have hs : isSuccessPayload ⟨200, [("id", User.GetId resp.User),
        ("email", User.GetEmail resp.User), ("name", User.GetName resp.User)]⟩ := by
      simp [isSuccessPayload, keys]
    refine ⟨_, ?_, fun _ => hs, ?_, Or.inl hs⟩
    · rw [getUser_of_ok cl c conn resp h]; rfl
    · rintro ⟨err, herr⟩; cases herr

/-- The create handler writes exactly one response: an error object when the binding fails
or the call fails, a success payload when the call succeeds. -/
theorem createUser_written {σ : Type} (isEmail : String → Bool) (cl : UserServiceClient σ)
    (c : GinContext) (conn : Conn σ) :
    ∃ r, (createUser isEmail cl c conn).1.written = c.written ++ [r] ∧
      ((∃ body resp, ShouldBindJSON isEmail c = .ok body ∧
          (cl.CreateUser (context.WithTimeout c.Request (2 * time.Second))
            ⟨body.Email, body.Name⟩ conn.backend).1 = .ok resp) → isSuccessPayload r) ∧
      (((∃ e, ShouldBindJSON isEmail c = .error e) ∨
        (∃ body err, ShouldBindJSON isEmail c = .ok body ∧
          (cl.CreateUser (context.WithTimeout c.Request (2 * time.Second))
            ⟨body.Email, body.Name⟩ conn.backend).1 = .error err)) → isErrorObject r) ∧
      (isSuccessPayload r ∨ isErrorObject r) := by
  cases hb : ShouldBindJSON isEmail c with
  | error e =>
    have he : isErrorObject ⟨400, [("error", e)]⟩ := by simp [isErrorObject, keys]
    refine ⟨_, ?_, ?_, fun _ => he, Or.inr he⟩
    · rw [createUser_of_bind_error isEmail cl c conn e hb]; rfl
    · rintro ⟨body, resp, hbody, _⟩; cases hbody
  | ok body =>
    cases h : (cl.CreateUser (context.WithTimeout c.Request (2 * time.Second))
        ⟨body.Email, body.Name⟩ conn.backend).1 with
    | error err =>
      obtain ⟨r, hr, he, _⟩ := writeGRPCError_written c err
      refine ⟨r, ?_, ?_, fun _ => he, Or.inr he⟩
      · rw [createUser_of_error isEmail cl c conn body err hb h]; exact hr
      · rintro ⟨body2, resp, hbody, hresp⟩
        cases hbody
        rw [h] at hresp
        cases hresp
    | ok resp =>
      have hs : isSuccessPayload ⟨201, [("id", User.GetId resp.User),
          ("email", User.GetEmail resp.User), ("name", User.GetName resp.User)]⟩ := by
        simp [isSuccessPayload, keys]
      refine ⟨_, ?_, fun _ => hs, ?_, Or.inl hs⟩
      · rw [createUser_of_ok isEmail cl c conn body resp hb h]; rfl
      · rintro (⟨e, he⟩ | ⟨body2, err, hbody, herr⟩)
        · cases he
        · cases hbody
          rw [h] at herr
          cases herr

/-! ## The get handler: deadline failures -/

/-- The deadline of the call context of a handler is at most 2 seconds. -/
theorem callContext_deadline (parent : Context) :
    ∃ d, (context.WithTimeout parent (2 * time.Second)).deadline = some d ∧
      d ≤ 2 * time.Second := by
  unfold context.WithTimeout
  cases parent.deadline with
  | none => exact ⟨_, rfl, le_refl _⟩
  | some p => exact ⟨_, rfl, min_le_right _ _⟩

/-- A call that outlasts the deadline of its context returns the deadline failure, converted
by `toRPCErr`, whatever the backend would have answered. -/
theorem Invoke_late {α : Type} (raised : GoError) (ctx : Context) (reply : Reply α) (d : Nat)
    (hd : ctx.deadline = some d) (hlate : d < reply.elapsed) :
    Invoke raised ctx reply = .error (toRPCErr raised) := by
  unfold Invoke
  rw [hd]
  simp [hlate]

/-- A deadline failure in either form leaves `toRPCErr` as a status with code
`DeadlineExceeded`. -/
theorem toRPCErr_deadline (raised : GoError) (h : isDeadlineFailure raised) :
    ∃ m, toRPCErr raised = .grpcStatus codes.DeadlineExceeded m := by
  rcases h with ⟨m, rfl⟩ | rfl
  · exact ⟨m, rfl⟩
  · exact ⟨"context deadline exceeded", by decide⟩

/-- C6: for every identifier, every backend and every inbound request context, if the backend
call issued by `getUser` has not returned after 2 seconds, `getUser` writes exactly one
response, 504 with "upstream timeout", whatever the backend would have answered later and
in whichever of its two forms (a gRPC status with code `DeadlineExceeded` or the bare context
deadline error) the deadline failure is raised. -/
theorem getUser_timeout {σ : Type} (raised : GoError) (b : Backend σ) (c : GinContext)
    (conn : Conn σ) (hform : isDeadlineFailure raised)
    (hlate : 2 * time.Second < (b.GetUser ⟨c.paramId⟩ conn.backend).1.elapsed) :
    (getUser (NewUserServiceClient raised b) c conn).1.written
      = c.written ++ [⟨504, [("error", "upstream timeout")]⟩] := by
  obtain ⟨d, hd, hle⟩ := callContext_deadline c.Request
  obtain ⟨m, hm⟩ := toRPCErr_deadline raised hform
  have hcall : ((NewUserServiceClient raised b).GetUser
      (context.WithTimeout c.Request (2 * time.Second)) ⟨c.paramId⟩ conn.backend).1
      = .error (.grpcStatus codes.DeadlineExceeded m) := by
    rw [← hm]
    exact Invoke_late raised _ _ d hd (lt_of_le_of_lt hle hlate)
  rw [getUser_of_error _ c conn _ hcall]
  simp [writeGRPCError, status.FromError, GinContext.JSON, http.StatusGatewayTimeout,
    codes.DeadlineExceeded, codes.NotFound, codes.InvalidArgument]

/-- Witness of C6: against the timed double, whose call for the id "slow" takes 3 seconds and
whose deadline failure is raised as the bare context error, the response is 504 with
"upstream timeout"; the call for the id "7" returns in time and is answered 200. -/
theorem getUser_timeout_witness :
    (getUser (NewUserServiceClient context.DeadlineExceeded timedBackend) (getRequest "slow")
      freshConn).1.written = [] ++ [⟨504, [("error", "upstream timeout")]⟩] ∧
    (getUser (NewUserServiceClient context.DeadlineExceeded timedBackend) (getRequest "7")
      freshConn).1.written = [⟨200, [("id", "7"), ("email", "a@b.com"), ("name", "Ann")]⟩] :=
  ⟨getUser_timeout context.DeadlineExceeded timedBackend (getRequest "slow") freshConn
    (Or.inr rfl) (by decide), by decide⟩

/-! ## The create handler: statuses -/

/-- Counterexample to C7 as stated: the body with email a@b.com and name "bad" passes
validation, the double rejects it as an invalid argument, and `createUser` answers 400 after
one backend call was made; 400 is neither 404, 500 nor 504. -/
theorem createUser_status_counterexample :
    ShouldBindJSON sampleIsEmail (postRequest ⟨"a@b.com", "bad"⟩) = .ok ⟨"a@b.com", "bad"⟩ ∧
    (createUser sampleIsEmail doubleClient (postRequest ⟨"a@b.com", "bad"⟩)
      freshConn).1.written = [⟨400, [("error", "bad name")]⟩] ∧
    (createUser sampleIsEmail doubleClient (postRequest ⟨"a@b.com", "bad"⟩)
      freshConn).2.calls = [Call.CreateUser ⟨some 2000000000⟩ ⟨"a@b.com", "bad"⟩] ∧
    (createUser sampleIsEmail doubleClient (postRequest ⟨"a@b.com", "bad"⟩)
      freshConn).2.backend = 1 := by
  refine ⟨rfl, ?_, ?_, ?_⟩ <;> decide

/-- C7, amended: when validation fails, `createUser` answers 400 and no backend call is made;
for a body that passes validation, the status is 201 when the backend call succeeds and one
of 400, 404, 500, 504 when it fails, 400 exactly when the failure is a gRPC status with code
`InvalidArgument`. -/
theorem createUser_status {σ : Type} (isEmail : String → Bool) (cl : UserServiceClient σ)
    (c : GinContext) (conn : Conn σ) :
    (∀ e, ShouldBindJSON isEmail c = .error e →
      (∃ b, (createUser isEmail cl c conn).1.written = c.written ++ [⟨400, b⟩]) ∧
      (createUser isEmail cl c conn).2.calls = conn.calls) ∧
    (∀ body, ShouldBindJSON isEmail c = .ok body →
      (∀ resp, (cl.CreateUser (context.WithTimeout c.Request (2 * time.Second))
          ⟨body.Email, body.Name⟩ conn.backend).1 = .ok resp →
        ∃ b, (createUser isEmail cl c conn).1.written = c.written ++ [⟨201, b⟩]) ∧
      (∀ err, (cl.CreateUser (context.WithTimeout c.Request (2 * time.Second))
          ⟨body.Email, body.Name⟩ conn.backend).1 = .error err →
        ∃ st b, (createUser isEmail cl c conn).1.written = c.written ++ [⟨st, b⟩] ∧
          (st = 400 ∨ st = 404 ∨ st = 500 ∨ st = 504) ∧
          (st = 400 ↔ ∃ m, err = .grpcStatus codes.InvalidArgument m))) := by
  constructor
  · intro e he
    rw [createUser_of_bind_error isEmail cl c conn e he]
    exact ⟨⟨_, rfl⟩, rfl⟩
  · intro body hb
    constructor
    · intro resp h
      rw [createUser_of_ok isEmail cl c conn body resp hb h]
      exact ⟨_, rfl⟩
    · intro err h
      rw [createUser_of_error isEmail cl c conn body err hb h]
      obtain ⟨r, hr, he, h400⟩ := writeGRPCError_written c err
      exact ⟨r.status, r.body, hr, he.1, h400⟩

/-- Witness of amended C7: the body with email a@b.com and name "bad" passes validation and
the double rejects it as an invalid argument; the status is one of the four and it is 400. -/
theorem createUser_status_witness :
    ∃ st b, (createUser sampleIsEmail doubleClient (postRequest ⟨"a@b.com", "bad"⟩)
        freshConn).1.written = [] ++ [⟨st, b⟩] ∧
      (st = 400 ∨ st = 404 ∨ st = 500 ∨ st = 504) ∧
      (st = 400 ↔ ∃ m, GoError.grpcStatus codes.InvalidArgument "bad name"
        = .grpcStatus codes.InvalidArgument m) :=
  ((createUser_status sampleIsEmail doubleClient (postRequest ⟨"a@b.com", "bad"⟩)
    freshConn).2 ⟨"a@b.com", "bad"⟩ rfl).2 (.grpcStatus codes.InvalidArgument "bad name") rfl

/-! ## Exactly one response -/

/-- C8: for every request and every backend outcome, `getUser` and `createUser` each write
exactly one response; it is a success payload or an error object and never both; it is an
error object (status 400, 404, 500 or 504, body with the single field error) exactly when the
request failed, that is when the binding failed or the backend call returned an error. -/
theorem one_response {σ : Type} (isEmail : String → Bool) (cl : UserServiceClient σ)
    (c : GinContext) (conn : Conn σ) :
    (∃ r, (getUser cl c conn).1.written = c.written ++ [r] ∧
      (isSuccessPayload r ∨ isErrorObject r) ∧ ¬ (isSuccessPayload r ∧ isErrorObject r) ∧
      (isErrorObject r ↔
        ∃ err, (cl.GetUser (context.WithTimeout c.Request (2 * time.Second)) ⟨c.paramId⟩
          conn.backend).1 = .error err)) ∧
    (∃ r, (createUser isEmail cl c conn).1.written = c.written ++ [r] ∧
      (isSuccessPayload r ∨ isErrorObject r) ∧ ¬ (isSuccessPayload r ∧ isErrorObject r) ∧
      (isErrorObject r ↔
        ((∃ e, ShouldBindJSON isEmail c = .error e) ∨
          (∃ body err, ShouldBindJSON isEmail c = .ok body ∧
            (cl.CreateUser (context.WithTimeout c.Request (2 * time.Second))
              ⟨body.Email, body.Name⟩ conn.backend).1 = .error err)))) := by
  constructor
  · obtain ⟨r, hr, hok, herr, hor⟩ := getUser_written cl c conn
    refine ⟨r, hr, hor, not_success_and_error r, ?_, herr⟩
    intro he
    cases h : (cl.GetUser (context.WithTimeout c.Request (2 * time.Second)) ⟨c.paramId⟩
        conn.backend).1 with
    | error err => exact ⟨err, rfl⟩
    | ok resp => exact absurd ⟨hok ⟨resp, h⟩, he⟩ (not_success_and_error r)
  · obtain ⟨r, hr, hok, herr, hor⟩ := createUser_written isEmail cl c conn
    refine ⟨r, hr, hor, not_success_and_error r, ?_, herr⟩
    intro he
    cases hb : ShouldBindJSON isEmail c with
    | error e => exact Or.inl ⟨e, rfl⟩
    | ok body =>
      cases h : (cl.CreateUser (context.WithTimeout c.Request (2 * time.Second))
          ⟨body.Email, body.Name⟩ conn.backend).1 with
      | error err => exact Or.inr ⟨body, err, rfl, h⟩
      | ok resp => exact absurd ⟨hok ⟨body, resp, hb, h⟩, he⟩ (not_success_and_error r)

/-- The error translation does not look at the context it writes to. -/
theorem writeGRPCError_two (c1 c2 : GinContext) (err : GoError) :
    ∃ r, (writeGRPCError c1 err).written = c1.written ++ [r] ∧
      (writeGRPCError c2 err).written = c2.written ++ [r] ∧ isErrorObject r := by
  cases err with
  | plain t =>
    exact ⟨⟨500, [("error", "unknown error")]⟩, rfl, rfl, by simp [isErrorObject, keys]⟩
  | grpcStatus k m =>
    simp only [writeGRPCError, status.FromError, GinContext.JSON]
    split_ifs <;>
      exact ⟨_, rfl, rfl, by
        simp [isErrorObject, keys, http.StatusNotFound, http.StatusBadRequest,
          http.StatusGatewayTimeout, http.StatusInternalServerError]⟩

/-! ## Idempotence of the get handler -/

/-- C10: when the backend gives the same answer to both calls, two invocations of `getUser`
with the same identifier write the same single response: the same status and the same body.
The rendered bytes of that body are the same for every order in which the map's entries may
be listed, and a success payload is always written with its keys in the order email, id,
name. -/
theorem getUser_idempotent {σ : Type} (quote : String → String) (cl : UserServiceClient σ)
    (c1 c2 : GinContext) (conn : Conn σ) (id : String)
    (hid1 : c1.paramId = id) (hid2 : c2.paramId = id)
    (hsame : (cl.GetUser (context.WithTimeout c2.Request (2 * time.Second)) ⟨id⟩
        (getUser cl c1 conn).2.backend).1 =
      (cl.GetUser (context.WithTimeout c1.Request (2 * time.Second)) ⟨id⟩ conn.backend).1) :
    ∃ r, (getUser cl c1 conn).1.written = c1.written ++ [r] ∧
      (getUser cl c2 (getUser cl c1 conn).2).1.written = c2.written ++ [r] ∧
      (∀ h1 h2 : H, h1.Perm r.body → h2.Perm r.body → Marshal quote h1 = Marshal quote h2) ∧
      (isSuccessPayload r → ∃ i e n, r.body = [("id", i), ("email", e), ("name", n)] ∧
        Marshal quote r.body = "\x7b" ++ ",".intercalate
          [quote "email" ++ ":" ++ quote e, quote "id" ++ ":" ++ quote i,
            quote "name" ++ ":" ++ quote n] ++ "\x7d") := by
  rw [← hid1] at hsame
  nth_rewrite 1 [← hid2.trans hid1.symm] at hsame
  cases h : (cl.GetUser (context.WithTimeout c1.Request (2 * time.Second)) ⟨c1.paramId⟩
      conn.backend).1 with
  | error err =>
    rw [h] at hsame
    obtain ⟨r, hr1, hr2, he⟩ := writeGRPCError_two c1 c2 err
    refine ⟨r, ?_, ?_, ?_, ?_⟩
    · rw [getUser_of_error cl c1 conn err h]; exact hr1
    · rw [getUser_of_error cl c2 _ err hsame]; exact hr2
    · intro h1 h2 p1 p2
      rw [Marshal_perm quote r.body h1 p1 (isErrorObject_nodup r he),
        Marshal_perm quote r.body h2 p2 (isErrorObject_nodup r he)]
    · intro hs
      exact absurd ⟨hs, he⟩ (not_success_and_error r)
  | ok resp =>
    rw [h] at hsame
    have hs : isSuccessPayload ⟨200, [("id", User.GetId resp.User),
        ("email", User.GetEmail resp.User), ("name", User.GetName resp.User)]⟩ := by
      simp [isSuccessPayload, keys]
    refine ⟨⟨200, [("id", User.GetId resp.User), ("email", User.GetEmail resp.User),
      ("name", User.GetName resp.User)]⟩, ?_, ?_, ?_, fun _ => ⟨_, _, _, rfl, ?_⟩⟩
    · rw [getUser_of_ok cl c1 conn resp h]; rfl
    · rw [getUser_of_ok cl c2 _ resp hsame]; rfl
    · intro h1 h2 p1 p2
      rw [Marshal_perm quote _ h1 p1 (isSuccessPayload_nodup _ hs),
        Marshal_perm quote _ h2 p2 (isSuccessPayload_nodup _ hs)]
    · simp only [Marshal, sortedEntries_payload, List.map]

/-- Witness of C10: two gets for the id "7" against the double, whose answer to that id does
not depend on its counter; both write 200 with the same body, rendered with the keys in the
order email, id, name. -/
theorem getUser_idempotent_witness :
    ∃ r, (getUser doubleClient (getRequest "7") freshConn).1.written = [] ++ [r] ∧
      (getUser doubleClient (getRequest "7")
        (getUser doubleClient (getRequest "7") freshConn).2).1.written = [] ++ [r] ∧
      (∀ h1 h2 : H, h1.Perm r.body → h2.Perm r.body →
        Marshal sampleQuote h1 = Marshal sampleQuote h2) ∧
      (isSuccessPayload r → ∃ i e n, r.body = [("id", i), ("email", e), ("name", n)] ∧
        Marshal sampleQuote r.body = "\x7b" ++ ",".intercalate
          [sampleQuote "email" ++ ":" ++ sampleQuote e, sampleQuote "id" ++ ":" ++ sampleQuote i,
            sampleQuote "name" ++ ":" ++ sampleQuote n] ++ "\x7d") :=
  getUser_idempotent sampleQuote doubleClient (getRequest "7") (getRequest "7") freshConn "7"
    rfl rfl rfl

end Rest
